import Mathlib

/-!
Shallow embedding of `pl_report_missing_episodes_claude.py`, a script that
reconciles a Plex TV library against TVDB metadata and writes a spreadsheet
report.  External collaborators (Plex server, TVDB client, filesystem cache,
wall clock) are modelled as explicit environment records; the script's pure
control flow and data manipulation are translated function by function.
-/

set_option maxRecDepth 4000

/-- Python `"\n".join(l)`. -/
def joinNL (l : List String) : String := String.intercalate "\n" l

/-- Test that `needle` is a prefix of `hay` (on character lists). -/
def leadsWith : List Char → List Char → Bool
  | [], _ => true
  | _ :: _, [] => false
  | a :: as, b :: bs => a == b && leadsWith as bs

/-- The remainder of `hay` after the first occurrence of `needle`, or
    `none` when `needle` does not occur. -/
def afterNeedle (needle : List Char) : List Char → Option (List Char)
  | [] => none
  | c :: rest =>
    if leadsWith needle (c :: rest) then some (List.drop needle.length (c :: rest))
    else afterNeedle needle rest

/-- The prefix of `hay` up to (excluding) the first occurrence of
    `needle`. -/
def untilNeedle (needle : List Char) : List Char → List Char
  | [] => []
  | c :: rest =>
    if leadsWith needle (c :: rest) then [] else c :: untilNeedle needle rest

/-- Python `needle in hay` for a non-empty `needle`. -/
def strContains (hay needle : String) : Bool :=
  (afterNeedle needle.toList hay.toList).isSome

/-- Python `hay.split(needle)[1]` for a non-empty `needle` that occurs in
    `hay`: the segment between the first occurrence and the next (or the
    end).  When `needle` does not occur the source would raise `IndexError`;
    the call site guards with a containment check, so `""` stands in. -/
def pySplitSecond (hay needle : String) : String :=
  match afterNeedle needle.toList hay.toList with
  | none => ""
  | some rest => String.mk (untilNeedle needle.toList rest)

/-- Pointwise update of a two-level dictionary, modelling
    `d[s][e] = v` on the nested Python dicts (membership tests in the source
    are always the conjunction `s in d and e in d[s]`, so the flat view is
    equivalent). -/
def upd2 {α : Type} (f : Nat → Nat → Option α) (s e : Nat) (v : α) :
    Nat → Nat → Option α :=
  fun s' e' => if s' = s ∧ e' = e then some v else f s' e'

/-- Pointwise update of a sheet, modelling a row write at index `i`
    (the 13 per-cell `write` calls of one row are bundled into one record). -/
def updRow {α : Type} (f : Nat → Option α) (i : Nat) (v : α) : Nat → Option α :=
  fun j => if j = i then some v else f j

/-! ## TVDB-side data model -/

/-- One entry of `tvdb_client.search(...)`; `year` is the result of
    `str(result.get("year", ""))`. -/
structure SearchResult where
  year : String
  tvdb_id : String
  name : String
deriving DecidableEq

/-- Raw JSON value found under a series-level season's `"type"` key:
    `null`/missing, a plain string, or an object whose nested `"type"` field
    is the optional string `t`. -/
inductive TypeVal where
  | null
  | str (s : String)
  | obj (t : Option String)
deriving DecidableEq

/-- A season entry of `series_data["seasons"]` (series-level list). -/
structure SeriesSeason where
  id : Nat
  number : Nat
  type : TypeVal
deriving DecidableEq

/-- Result of `tvdb_client.get_series_extended(id)`, keeping the part the
    script reads: the series-level season list. -/
structure SeriesData where
  seasons : List SeriesSeason
deriving DecidableEq

/-- One canonical episode from extended season data. -/
structure EpisodeData where
  number : Nat
  name : String
  aired : Option String
deriving DecidableEq

/-- Result of `tvdb_client.get_season_extended(id)`. -/
structure SeasonExt where
  number : Nat
  name : String
  episodes : List EpisodeData
deriving DecidableEq

/-- The aggregate `show_data = {"series": ..., "seasons": [...]}` that is
    cached and reconciled. -/
structure ShowData where
  series : SeriesData
  seasons : List SeasonExt
deriving DecidableEq

/-! ## Cache manager -/

/-- `CACHE_EXPIRY_DAYS` from the configuration block. -/
def CACHE_EXPIRY_DAYS : Int := 14

/-- Seconds per day, fixing the unit in which timestamps are modelled. -/
def secondsPerDay : Int := 86400

/-- A cache file on disk: its mtime and its contents; `content = none`
    models a file whose `open`/`json.load` raises (corrupt or unreadable). -/
structure CacheEntry where
  mtime : Int
  content : Option ShowData

/-- Environment seen by `get_tvdb_data`: the wall clock, the cache directory
    (keyed by cache filename), and the TVDB client's three operations.
    `Except.error msg` models the call raising an exception with message
    `msg`; `cacheWrite` returns `some msg` when writing the cache file
    raises. -/
structure TVDBEnv where
  now : Int
  cache : String → Option CacheEntry
  searchOutcome : Except String (List SearchResult)
  seriesFetch : String → Except String SeriesData
  seasonFetch : Nat → Except String SeasonExt
  cacheWrite : String → Option String

/-- `get_cache_filename`. -/
def get_cache_filename (tvdb_id : String) : String :=
  "./cache/tvdb_" ++ tvdb_id ++ ".json"

/-- `is_cache_valid`: the file exists and
    `file_time > now - timedelta(days=CACHE_EXPIRY_DAYS)`. -/
def is_cache_valid (env : TVDBEnv) (cache_file : String) : Bool :=
  match env.cache cache_file with
  | none => false
  | some entry => decide (entry.mtime > env.now - CACHE_EXPIRY_DAYS * secondsPerDay)

/-! ## Metadata resolver -/

/-- Year-match test of the search loop:
    `show_year and str(result.get("year", "")) == str(show_year)`
    (an absent/empty year is falsy, so it never matches). -/
def yearMatches (show_year : String) (r : SearchResult) : Bool :=
  show_year ≠ "" && r.year == show_year

/-- Best-match selection of the search branch: the first result whose year
    matches, else (`if not best_match and search_results`) the first result. -/
def selectBestMatch (show_year : String) (results : List SearchResult) :
    Option SearchResult :=
  match results.find? (yearMatches show_year) with
  | some r => some r
  | none => results.head?

/-- Truthiness-and-skip test of line 182:
    `season["type"] and season["type"]["type"] and season["type"]["type"] != "official"`.
    A non-empty string type value raises `TypeError` on the nested subscript
    (propagated to the surrounding handler); an object is truthy, its nested
    field is truthy when a non-empty string. `ok true` means "skip". -/
def seasonSkipCheck (tv : TypeVal) : Except String Bool :=
  match tv with
  | .null => .ok false
  | .str s => if s = "" then .ok false else .error "string indices must be integers"
  | .obj t => .ok (decide (t.getD "" ≠ "" ∧ t.getD "" ≠ "official"))

/-- The per-season fetch loop of `get_tvdb_data`: skipped seasons are
    dropped, a failing `get_season_extended` is logged and skipped, and an
    exception from the skip test aborts the whole loop (it is caught by the
    enclosing handler, discarding the partial aggregate). -/
def fetchSeasons (env : TVDBEnv) : List SeriesSeason → Except String (List SeasonExt)
  | [] => .ok []
  | s :: rest =>
    match seasonSkipCheck s.type with
    | .error e => .error e
    | .ok true => fetchSeasons env rest
    | .ok false =>
      match env.seasonFetch s.id with
      | .error _ => fetchSeasons env rest
      | .ok ext =>
        match fetchSeasons env rest with
        | .error e => .error e
        | .ok exts => .ok (ext :: exts)

/-- Outcome of `get_tvdb_data`, together with observable events:
    `resolvedId` is the TVDB id in use after the search step (when one was
    obtained), `usedCache` records a cache hit being returned, `fetched`
    records `get_series_extended` being called, `wroteCache` records a
    successful cache write. -/
structure ResolveResult where
  outcome : Except String ShowData
  resolvedId : Option String
  usedCache : Bool
  fetched : Bool
  wroteCache : Bool

/-- Search step of `get_tvdb_data` (executed when `not tvdb_id`): resolve a
    TVDB id from the title search, or produce the error string the caller
    routes on. -/
def searchForId (env : TVDBEnv) (show_year : String) : Except String String :=
  match env.searchOutcome with
  | .error e => .error ("TVDB search error: " ++ e)
  | .ok [] => .error "Not found on TVDB"
  | .ok (r :: rs) =>
    match selectBestMatch show_year (r :: rs) with
    | some best => .ok best.tvdb_id
    | none => .error "No suitable match found"

/-- Fetch-and-cache step of `get_tvdb_data` (lines 173-202): fetch extended
    series data, fetch each non-skipped season, write the aggregate to the
    cache file, and return it; any exception in this block (including one
    raised by the cache write) yields `"TVDB API error: ..."`. -/
def fetchFresh (env : TVDBEnv) (tvdb_id cache_file : String) : ResolveResult :=
  match env.seriesFetch tvdb_id with
  | .error e =>
    ⟨.error ("TVDB API error: " ++ e), some tvdb_id, false, true, false⟩
  | .ok series =>
    match fetchSeasons env series.seasons with
    | .error e =>
      ⟨.error ("TVDB API error: " ++ e), some tvdb_id, false, true, false⟩
    | .ok exts =>
      match env.cacheWrite cache_file with
      | some e =>
        ⟨.error ("TVDB API error: " ++ e), some tvdb_id, false, true, false⟩
      | none =>
        ⟨.ok ⟨series, exts⟩, some tvdb_id, false, true, true⟩

/-- Cache-or-fetch step of `get_tvdb_data` for a resolved id: a valid cache
    file whose contents load is returned; a read failure falls through to a
    fresh fetch. -/
def cachedOrFetch (env : TVDBEnv) (tvdb_id : String) : ResolveResult :=
  match
    (if is_cache_valid env (get_cache_filename tvdb_id) then
       match env.cache (get_cache_filename tvdb_id) with
       | some entry => entry.content
       | none => none
     else none) with
  | some data => ⟨.ok data, some tvdb_id, true, false, false⟩
  | none => fetchFresh env tvdb_id (get_cache_filename tvdb_id)

/-- `get_tvdb_data`: resolve an id (searching when none was supplied or the
    supplied one is falsy), then consult the cache and fetch on a miss. -/
def get_tvdb_data (env : TVDBEnv) (show_year : String)
    (tvdb_id : Option String) : ResolveResult :=
  match tvdb_id with
  | some i =>
    if i ≠ "" then cachedOrFetch env i
    else
      match searchForId env show_year with
      | .error e => ⟨.error e, none, false, false, false⟩
      | .ok found => cachedOrFetch env found
  | none =>
    match searchForId env show_year with
    | .error e => ⟨.error e, none, false, false, false⟩
    | .ok found => cachedOrFetch env found

/-! ## Plex-side data model and inventory builder -/

/-- One entry of `show.guids`. -/
structure PlexGuid where
  id : String
deriving DecidableEq

/-- `extract_tvdb_id`: the first guid containing `"tvdb://"`, split on
    `"//"`, second piece. -/
def extract_tvdb_id (guids : List PlexGuid) : Option String :=
  match guids.find? (fun g => strContains g.id "tvdb://") with
  | some g => some (pySplitSecond g.id "//")
  | none => none

/-- One media part of an episode. -/
structure PlexPart where
  file : String
deriving DecidableEq

/-- A Plex episode as the script reads it; `parts = Except.error msg` models
    `iterParts()` (or an attribute access on the episode) raising with
    message `msg`. -/
structure PlexEpisode where
  seasonNumber : Nat
  index : Nat
  locations : List String
  parts : Except String (List PlexPart)

/-- A Plex show; `episodesResult = Except.error msg` models
    `show.episodes()` raising. -/
structure PlexShow where
  title : String
  year : String
  guids : List PlexGuid
  episodesResult : Except String (List PlexEpisode)

/-- The episode object as stored in `plex_episodes[s][e]`: its `locations`
    attribute and the dynamically added `combined_locations` attribute
    (`none` when the attribute was never set). -/
structure StoredEpisode where
  locations : List String
  combined_locations : Option (List String)
deriving DecidableEq

/-- The two dictionaries built by the inventory loop:
    `plex_episodes[s][e]` and `plex_episodes_count[s][e]`. -/
structure Inventory where
  recs : Nat → Nat → Option StoredEpisode
  counts : Nat → Nat → Option Nat

/-- The empty inventory. -/
def emptyInv : Inventory := ⟨fun _ _ => none, fun _ _ => none⟩

/-- Body of the `for media_part in episode.iterParts()` loop: bump the
    occurrence count, then either append the (normalized) path to the stored
    episode's `combined_locations` (only when the current episode's
    `locations` is truthy) or store the episode with its initial
    `combined_locations`.  `normPath` stands for
    `str(Path(file.replace("\\?\\", "")).absolute())`, which depends on the
    process working directory. -/
def addPart (normPath : String → String) (ep : PlexEpisode) (inv : Inventory)
    (p : PlexPart) : Inventory :=
  let path := normPath p.file
  let s := ep.seasonNumber
  let e := ep.index
  let counts' :=
    match inv.counts s e with
    | none => upd2 inv.counts s e 1
    | some c => upd2 inv.counts s e (c + 1)
  let recs' :=
    match inv.recs s e with
    | some existing =>
      if ep.locations ≠ [] then
        match existing.combined_locations with
        | some l => upd2 inv.recs s e ⟨existing.locations, some (l ++ [path])⟩
        | none => upd2 inv.recs s e ⟨existing.locations, some [path]⟩
      else inv.recs
    | none =>
      upd2 inv.recs s e
        ⟨ep.locations, if ep.locations ≠ [] then some [normPath p.file] else none⟩
  ⟨recs', counts'⟩

/-- The per-episode loop: all parts of one episode are folded in; an
    exception while reading one episode's parts aborts the remaining loop
    (the `except` sits outside the `for`), keeping the inventory built so
    far. -/
def buildInventoryGo (normPath : String → String) :
    List PlexEpisode → Inventory → Inventory
  | [], inv => inv
  | ep :: rest, inv =>
    match ep.parts with
    | .error _ => inv
    | .ok ps => buildInventoryGo normPath rest (ps.foldl (addPart normPath ep) inv)

/-- Inventory building for a show (lines 245-290): a failure of
    `show.episodes()` itself leaves both dictionaries empty. -/
def buildShowInventory (normPath : String → String)
    (res : Except String (List PlexEpisode)) : Inventory :=
  match res with
  | .error _ => emptyInv
  | .ok eps => buildInventoryGo normPath eps emptyInv

/-! ## Reconciler -/

/-- Series-level official-season predicate of line 297:
    `s.get("type") is None or s.get("type") == "official"` — note the raw
    type value (possibly an object) is compared with the string. -/
def countOfficialPred (tv : TypeVal) : Bool :=
  match tv with
  | .null => true
  | .str s => s == "official"
  | .obj _ => false

/-- `num_seasons = len(official_seasons)`. -/
def num_seasons_of (series : SeriesData) : Nat :=
  (series.seasons.filter (fun s => countOfficialPred s.type)).length

/-- Per-episode classification (lines 321-338): look up the inventory,
    derive the missing flag, duplicate flag and file-path cell. -/
def classifyEpisode (inv : Inventory) (s e : Nat) : Bool × Bool × String :=
  match inv.recs s e with
  | none => (true, false, "")
  | some r =>
    let dup :=
      match inv.counts s e with
      | some c => decide (c > 1)
      | none => false
    let fp :=
      match r.combined_locations with
      | some l =>
        if l ≠ [] then joinNL l
        else if r.locations ≠ [] then joinNL r.locations else ""
      | none => if r.locations ≠ [] then joinNL r.locations else ""
    (false, dup, fp)

/-- One main-sheet row (the 13 columns written at lines 341-353). -/
structure ReportRow where
  library : String
  showTitle : String
  showYear : String
  numSeasons : Nat
  seasonNum : Nat
  seasonName : String
  numEpisodes : Nat
  episodeNum : Nat
  airDate : String
  isMissing : Bool
  isDuplicate : Bool
  episodeTitle : String
  filePath : String
deriving DecidableEq

/-- One error-sheet row (columns 0-3 of TVNTF/TVERR). -/
structure ErrorRow where
  library : String
  showTitle : String
  showYear : String
  details : String
deriving DecidableEq

/-- The row written for one canonical episode of one fetched season. -/
def mkRow (library showTitle showYear : String) (numSeasons : Nat)
    (inv : Inventory) (sd : SeasonExt) (ep : EpisodeData) : ReportRow :=
  let c := classifyEpisode inv sd.number ep.number
  { library := library
    showTitle := showTitle
    showYear := showYear
    numSeasons := numSeasons
    seasonNum := sd.number
    seasonName := sd.name
    numEpisodes := sd.episodes.length
    episodeNum := ep.number
    airDate := ep.aired.getD ""
    isMissing := c.1
    isDuplicate := c.2.1
    episodeTitle := ep.name
    filePath := c.2.2 }

/-- Flat view of the reconciliation output: one row per canonical episode of
    each fetched season with a non-empty episode list, in catalog order. -/
def seasonRows (library showTitle showYear : String) (numSeasons : Nat)
    (inv : Inventory) (sd : SeasonExt) : List ReportRow :=
  if sd.episodes.isEmpty then []
  else sd.episodes.map (mkRow library showTitle showYear numSeasons inv sd)

/-- All rows of one show, in emission order. -/
def reconcileRows (library showTitle showYear : String) (numSeasons : Nat)
    (inv : Inventory) (seasons : List SeasonExt) : List ReportRow :=
  seasons.flatMap (seasonRows library showTitle showYear numSeasons inv)

/-! ## Report emitter and `process_show` -/

/-- The three worksheets, row-indexed. -/
structure ReportState where
  main : Nat → Option ReportRow
  ntf : Nat → Option ErrorRow
  err : Nat → Option ErrorRow

/-- The report with only headers written. -/
def emptyReport : ReportState := ⟨fun _ => none, fun _ => none, fun _ => none⟩

/-- The season loop body (lines 301-355) acting on the main sheet and the
    running row index: an empty episode list is skipped, otherwise one row
    is written per episode and the index advances. -/
def writeSeason (library showTitle showYear : String) (numSeasons : Nat)
    (inv : Inventory) (acc : (Nat → Option ReportRow) × Nat) (sd : SeasonExt) :
    (Nat → Option ReportRow) × Nat :=
  if sd.episodes.isEmpty then acc
  else
    sd.episodes.foldl
      (fun a ep =>
        (updRow a.1 a.2 (mkRow library showTitle showYear numSeasons inv sd ep),
         a.2 + 1))
      acc

/-- TVDB id extraction at the top of `process_show`
    (`if hasattr(show, "guids") and show.guids`). -/
def showTvdbId (shw : PlexShow) : Option String :=
  if shw.guids.isEmpty then none else extract_tvdb_id shw.guids

/-- `process_show`: resolve the show's TVDB data; on an error route one
    error row to row 1 of the TVNTF sheet (message containing
    `"Not found"`) or the TVERR sheet and leave the row index unchanged; on
    success build the local inventory, reconcile every fetched season and
    return the advanced row index. -/
def process_show (normPath : String → String) (env : TVDBEnv) (shw : PlexShow)
    (plex_library_title : String) (st : ReportState) (row_index : Nat) :
    ReportState × Nat :=
  let res := get_tvdb_data env shw.year (showTvdbId shw)
  match res.outcome with
  | .error error =>
    if strContains error "Not found" then
      ({ st with ntf := updRow st.ntf 1 ⟨plex_library_title, shw.title, shw.year, error⟩ },
       row_index)
    else
      ({ st with err := updRow st.err 1 ⟨plex_library_title, shw.title, shw.year, error⟩ },
       row_index)
  | .ok tvdb_data =>
    let inv := buildShowInventory normPath shw.episodesResult
    let ns := num_seasons_of tvdb_data.series
    let out :=
      tvdb_data.seasons.foldl
        (writeSeason plex_library_title shw.title shw.year ns inv)
        (st.main, row_index)
    ({ st with main := out.1 }, out.2)

/-! ## Main loop with interrupt polling -/

/-- One show together with the resolver environment in effect when it is
    processed (the collaborators' behaviour may differ per call). -/
structure ShowTask where
  shw : PlexShow
  env : TVDBEnv

/-- One Plex TV library. -/
structure PlexLibrary where
  title : String
  shows : List ShowTask

/-- Reading the `terminate` flag at the `p`-th poll: the asynchronous signal
    handler sets the monotone flag at some point, modelled by the threshold
    `t` (polls numbered `t` onwards observe it set; `t` larger than every
    poll count models no interrupt). -/
def pollFlag (t p : Nat) : Bool := decide (t ≤ p)

/-- Accumulator threaded through the nested loops of `main`: the report
    state, the next main-sheet row index, and the number of flag polls
    performed so far. -/
structure LoopAcc where
  st : ReportState
  idx : Nat
  polls : Nat

/-- The inner `for show in shows` loop: each iteration first polls
    `terminate` (breaking when set), then processes the show to completion. -/
def runShows (normPath : String → String) (t : Nat) (lib : String) :
    List ShowTask → LoopAcc → LoopAcc
  | [], acc => acc
  | task :: rest, acc =>
    if pollFlag t acc.polls then ⟨acc.st, acc.idx, acc.polls + 1⟩
    else
      let r := process_show normPath task.env task.shw lib acc.st acc.idx
      runShows normPath t lib rest ⟨r.1, r.2, acc.polls + 1⟩

/-- The outer `for library in libraries` loop: after each library's show
    loop, `terminate` is polled once more and, when set, the remaining
    libraries are skipped. -/
def runLibraries (normPath : String → String) (t : Nat) :
    List PlexLibrary → LoopAcc → LoopAcc
  | [], acc => acc
  | lib :: rest, acc =>
    let acc' := runShows normPath t lib.title lib.shows acc
    if pollFlag t acc'.polls then ⟨acc'.st, acc'.idx, acc'.polls + 1⟩
    else runLibraries normPath t rest ⟨acc'.st, acc'.idx, acc'.polls + 1⟩

/-- The saved workbook: the three sheets plus the fact that
    `wb.close()` ran (the `finally` block always saves the report). -/
structure Workbook where
  report : ReportState
  nextRow : Nat
  closed : Bool

/-- `main` from the first data row onwards: run every library with the
    interrupt threshold `t`, then save the workbook. -/
def mainModel (normPath : String → String) (t : Nat)
    (libs : List PlexLibrary) : Workbook :=
  let acc := runLibraries normPath t libs ⟨emptyReport, 1, 0⟩
  ⟨acc.st, acc.idx, true⟩

/-- Uninterrupted sequential processing of a flat list of
    (library title, show) pairs. -/
def runTasks (normPath : String → String) :
    List (String × ShowTask) → ReportState × Nat → ReportState × Nat
  | [], acc => acc
  | (lib, task) :: rest, acc =>
    runTasks normPath rest (process_show normPath task.env task.shw lib acc.1 acc.2)

/-- All shows of a library list in processing order, each tagged with its
    library title. -/
def allShows (libs : List PlexLibrary) : List (String × ShowTask) :=
  libs.flatMap (fun l => l.shows.map (fun task => (l.title, task)))

/-! ## Spec-level helpers used by the theorems -/

/-- Writing a list of rows at consecutive indexes. -/
def writeRows (sheet : Nat → Option ReportRow) (idx : Nat) :
    List ReportRow → (Nat → Option ReportRow) × Nat
  | [] => (sheet, idx)
  | row :: rest => writeRows (updRow sheet idx row) (idx + 1) rest

/-- Total number of rows one show contributes: the episode counts of the
    fetched seasons with non-empty episode lists. -/
def episodeCountSum (seasons : List SeasonExt) : Nat :=
  (seasons.map (fun sd => if sd.episodes.isEmpty then 0 else sd.episodes.length)).sum

/-- Rows the call `process_show` writes to the main sheet: none on a
    resolution error, the reconciliation output otherwise. -/
def mainRowsOf (normPath : String → String) (env : TVDBEnv) (shw : PlexShow)
    (plex_library_title : String) : List ReportRow :=
  match (get_tvdb_data env shw.year (showTvdbId shw)).outcome with
  | .error _ => []
  | .ok tvdb_data =>
    reconcileRows plex_library_title shw.title shw.year
      (num_seasons_of tvdb_data.series)
      (buildShowInventory normPath shw.episodesResult) tvdb_data.seasons

/-- The season-type predicate the specification prescribes for the season
    count, for refinement comparison: the type is absent or (its type
    string is) "official". -/
def specOfficialPred : TypeVal → Bool
  | .null => true
  | .str s => s == "official"
  | .obj tstr => tstr == some "official"

/-! ## Helper lemmas -/

theorem writeRows_idx (rows : List ReportRow) :
    ∀ sheet idx, (writeRows sheet idx rows).2 = idx + rows.length := by
  induction rows with
  | nil => intro sheet idx; rfl
  | cons row rest ih =>
    intro sheet idx
    show (writeRows (updRow sheet idx row) (idx + 1) rest).2 = idx + (rest.length + 1)
    rw [ih]
    omega

theorem writeRows_lt (rows : List ReportRow) :
    ∀ sheet idx j, j < idx → (writeRows sheet idx rows).1 j = sheet j := by
  induction rows with
  | nil => intro sheet idx j _; rfl
  | cons row rest ih =>
    intro sheet idx j hj
    show (writeRows (updRow sheet idx row) (idx + 1) rest).1 j = sheet j
    rw [ih _ _ _ (by omega)]
    unfold updRow
    simp [Nat.ne_of_lt hj]

theorem writeRows_ge (rows : List ReportRow) :
    ∀ sheet idx j, idx + rows.length ≤ j → (writeRows sheet idx rows).1 j = sheet j := by
  induction rows with
  | nil => intro sheet idx j _; rfl
  | cons row rest ih =>
    intro sheet idx j hj
    show (writeRows (updRow sheet idx row) (idx + 1) rest).1 j = sheet j
    have hlen : rest.length + 1 = (row :: rest).length := rfl
    rw [ih _ _ _ (by simp at hj ⊢; omega)]
    unfold updRow
    have : j ≠ idx := by simp at hj; omega
    simp [this]

theorem writeRows_get (rows : List ReportRow) :
    ∀ sheet idx i, i < rows.length →
      (writeRows sheet idx rows).1 (idx + i) = rows.get? i := by
  induction rows with
  | nil => intro _ _ i hi; simp at hi
  | cons row rest ih =>
    intro sheet idx i hi
    show (writeRows (updRow sheet idx row) (idx + 1) rest).1 (idx + i) = _
    match i with
    | 0 =>
      rw [writeRows_lt rest _ _ _ (by omega)]
      unfold updRow
      simp
    | Nat.succ i' =>
      have : idx + (i' + 1) = (idx + 1) + i' := by omega
      rw [this, ih _ _ _ (by simpa using hi)]
      rfl

theorem writeRows_append (xs ys : List ReportRow) :
    ∀ sheet idx, writeRows sheet idx (xs ++ ys)
      = writeRows (writeRows sheet idx xs).1 (writeRows sheet idx xs).2 ys := by
  induction xs with
  | nil => intro sheet idx; rfl
  | cons x rest ih =>
    intro sheet idx
    show writeRows (updRow sheet idx x) (idx + 1) (rest ++ ys) = _
    rw [ih]
    rfl

theorem foldl_mkRow_eq (lib ttl yr : String) (ns : Nat) (inv : Inventory)
    (sd : SeasonExt) (eps : List EpisodeData) :
    ∀ sheet idx,
      eps.foldl
        (fun a ep => (updRow a.1 a.2 (mkRow lib ttl yr ns inv sd ep), a.2 + 1))
        (sheet, idx)
      = writeRows sheet idx (eps.map (mkRow lib ttl yr ns inv sd)) := by
  induction eps with
  | nil => intro sheet idx; rfl
  | cons ep rest ih =>
    intro sheet idx
    exact ih (updRow sheet idx (mkRow lib ttl yr ns inv sd ep)) (idx + 1)

theorem writeSeason_eq (lib ttl yr : String) (ns : Nat) (inv : Inventory)
    (sd : SeasonExt) (sheet : Nat → Option ReportRow) (idx : Nat) :
    writeSeason lib ttl yr ns inv (sheet, idx) sd
      = writeRows sheet idx (seasonRows lib ttl yr ns inv sd) := by
  unfold writeSeason seasonRows
  by_cases h : sd.episodes.isEmpty
  · simp [h, writeRows]
  · simp only [h, if_false, Bool.false_eq_true]
    exact foldl_mkRow_eq lib ttl yr ns inv sd sd.episodes sheet idx

theorem foldl_writeSeason_eq (lib ttl yr : String) (ns : Nat) (inv : Inventory)
    (seasons : List SeasonExt) :
    ∀ sheet idx,
      seasons.foldl (writeSeason lib ttl yr ns inv) (sheet, idx)
        = writeRows sheet idx (reconcileRows lib ttl yr ns inv seasons) := by
  induction seasons with
  | nil => intro sheet idx; rfl
  | cons sd rest ih =>
    intro sheet idx
    show List.foldl _ (writeSeason lib ttl yr ns inv (sheet, idx) sd) rest = _
    rw [writeSeason_eq]
    unfold reconcileRows
    rw [List.flatMap_cons, writeRows_append]
    rcases hw : writeRows sheet idx (seasonRows lib ttl yr ns inv sd) with ⟨s', i'⟩
    exact ih s' i'

theorem process_show_ok (normPath : String → String) (env : TVDBEnv)
    (shw : PlexShow) (lib : String) (st : ReportState) (idx : Nat)
    (data : ShowData)
    (h : (get_tvdb_data env shw.year (showTvdbId shw)).outcome = .ok data) :
    process_show normPath env shw lib st idx
      = ({ st with
            main := (writeRows st.main idx
              (mainRowsOf normPath env shw lib)).1 },
         idx + (mainRowsOf normPath env shw lib).length) := by
  simp only [process_show, mainRowsOf, h]
  rw [foldl_writeSeason_eq, writeRows_idx]

theorem process_show_error (normPath : String → String) (env : TVDBEnv)
    (shw : PlexShow) (lib : String) (st : ReportState) (idx : Nat)
    (e : String)
    (h : (get_tvdb_data env shw.year (showTvdbId shw)).outcome = .error e) :
    process_show normPath env shw lib st idx
      = (if strContains e "Not found" then
           { st with ntf := updRow st.ntf 1 ⟨lib, shw.title, shw.year, e⟩ }
         else
           { st with err := updRow st.err 1 ⟨lib, shw.title, shw.year, e⟩ },
         idx) := by
  simp only [process_show, h]
  by_cases hc : strContains e "Not found"
  · simp [hc]
  · simp [hc]


/-- Well-formedness of an inventory as produced by the builder: a stored
    episode without the `combined_locations` attribute has an empty
    `locations` list, a set `combined_locations` is non-empty, and a stored
    key always has an occurrence count. -/
def InvWF (inv : Inventory) : Prop :=
  ∀ s e r, inv.recs s e = some r →
    (r.combined_locations = none → r.locations = []) ∧
    (∀ l, r.combined_locations = some l → l ≠ []) ∧
    ∃ c, inv.counts s e = some c

theorem invWF_empty : InvWF emptyInv := by
  intro s e r h
  simp [emptyInv] at h

theorem addPart_counts_key (np : String → String) (ep : PlexEpisode)
    (inv : Inventory) (p : PlexPart) :
    ∃ c, (addPart np ep inv p).counts ep.seasonNumber ep.index = some c := by
  unfold addPart
  cases h : inv.counts ep.seasonNumber ep.index with
  | none => exact ⟨1, by simp [h, upd2]⟩
  | some c => exact ⟨c + 1, by simp [h, upd2]⟩

theorem addPart_counts_other (np : String → String) (ep : PlexEpisode)
    (inv : Inventory) (p : PlexPart) (s0 e0 : Nat)
    (h : ¬(s0 = ep.seasonNumber ∧ e0 = ep.index)) :
    (addPart np ep inv p).counts s0 e0 = inv.counts s0 e0 := by
  unfold addPart
  cases hc : inv.counts ep.seasonNumber ep.index <;> simp [hc, upd2, h]

theorem addPart_recs_other (np : String → String) (ep : PlexEpisode)
    (inv : Inventory) (p : PlexPart) (s0 e0 : Nat)
    (h : ¬(s0 = ep.seasonNumber ∧ e0 = ep.index)) :
    (addPart np ep inv p).recs s0 e0 = inv.recs s0 e0 := by
  unfold addPart
  cases hr : inv.recs ep.seasonNumber ep.index with
  | none => simp [hr, upd2, h]
  | some existing =>
    by_cases hl : ep.locations = []
    · simp [hr, hl]
    · cases hcl : existing.combined_locations <;> simp [hr, hl, hcl, upd2, h]

theorem addPart_rec_wf (np : String → String) (ep : PlexEpisode)
    (inv : Inventory) (p : PlexPart) (r : StoredEpisode)
    (hprev : ∀ r0, inv.recs ep.seasonNumber ep.index = some r0 →
      (r0.combined_locations = none → r0.locations = []) ∧
      (∀ l, r0.combined_locations = some l → l ≠ []))
    (h : (addPart np ep inv p).recs ep.seasonNumber ep.index = some r) :
    (r.combined_locations = none → r.locations = []) ∧
    (∀ l, r.combined_locations = some l → l ≠ []) := by
  unfold addPart at h
  cases hr : inv.recs ep.seasonNumber ep.index with
  | none =>
    simp only [hr, upd2] at h
    by_cases hl : ep.locations = []
    · simp [hl] at h
      constructor
      · intro _; rw [← h]
      · intro l hcomb; rw [← h] at hcomb; simp at hcomb
    · simp [hl] at h
      constructor
      · intro hcomb; rw [← h] at hcomb; simp at hcomb
      · intro l hcomb; rw [← h] at hcomb
        simp at hcomb
        intro hnil
        rw [hnil] at hcomb
        simp at hcomb
  | some existing =>
    obtain ⟨hp1, hp2⟩ := hprev existing hr
    by_cases hl : ep.locations = []
    · simp only [hr, hl, ne_eq, not_true_eq_false, if_false] at h
      exact hprev r (by rw [← h, hr])
    · cases hcl : existing.combined_locations with
      | none =>
        simp only [hr, hl, hcl, ne_eq, not_false_eq_true, if_true, upd2] at h
        simp at h
        constructor
        · intro hcomb; rw [← h] at hcomb; simp at hcomb
        · intro l hcomb; rw [← h] at hcomb
          simp at hcomb
          intro hnil; rw [hnil] at hcomb; simp at hcomb
      | some l0 =>
        simp only [hr, hl, hcl, ne_eq, not_false_eq_true, if_true, upd2] at h
        simp at h
        constructor
        · intro hcomb; rw [← h] at hcomb; simp at hcomb
        · intro l hcomb; rw [← h] at hcomb
          simp at hcomb
          intro hnil; rw [hnil] at hcomb; simp at hcomb

theorem invWF_addPart (np : String → String) (ep : PlexEpisode)
    (inv : Inventory) (p : PlexPart) (hwf : InvWF inv) :
    InvWF (addPart np ep inv p) := by
  intro s0 e0 r hrec
  by_cases hk : s0 = ep.seasonNumber ∧ e0 = ep.index
  · obtain ⟨hs, he⟩ := hk
    subst hs
    subst he
    have hrw := addPart_rec_wf np ep inv p r
      (fun r0 hr0 => ⟨(hwf _ _ r0 hr0).1, (hwf _ _ r0 hr0).2.1⟩) hrec
    exact ⟨hrw.1, hrw.2, addPart_counts_key np ep inv p⟩
  · rw [addPart_recs_other np ep inv p s0 e0 hk] at hrec
    obtain ⟨h1, h2, c, hc⟩ := hwf s0 e0 r hrec
    refine ⟨h1, h2, c, ?_⟩
    rw [addPart_counts_other np ep inv p s0 e0 hk]
    exact hc

theorem invWF_foldl (np : String → String) (ep : PlexEpisode) :
    ∀ (ps : List PlexPart) (inv : Inventory), InvWF inv →
      InvWF (ps.foldl (addPart np ep) inv) := by
  intro ps
  induction ps with
  | nil => intro inv h; exact h
  | cons p rest ih => intro inv h; exact ih (addPart np ep inv p) (invWF_addPart np ep inv p h)

theorem invWF_go (np : String → String) :
    ∀ (eps : List PlexEpisode) (inv : Inventory), InvWF inv →
      InvWF (buildInventoryGo np eps inv) := by
  intro eps
  induction eps with
  | nil => intro inv h; exact h
  | cons ep rest ih =>
    intro inv h
    unfold buildInventoryGo
    cases ep.parts with
    | error _ => exact h
    | ok ps => exact ih _ (invWF_foldl np ep ps inv h)

theorem invWF_build (np : String → String)
    (res : Except String (List PlexEpisode)) :
    InvWF (buildShowInventory np res) := by
  cases res with
  | error _ => exact invWF_empty
  | ok eps => exact invWF_go np eps emptyInv invWF_empty

/-! ## Sample data used by witnesses and counterexamples -/

/-- A Plex episode S01E01 with one media part. -/
def sampleEp : PlexEpisode :=
  ⟨1, 1, ["/media/s01e01.mkv"], .ok [⟨"/media/s01e01.mkv"⟩]⟩

/-! ## Claims -/

/-- C1: for every canonical episode of an emitted season, the row fields are
    determined by looking up (season number, episode number) in the local
    inventory: an absent key yields missing=true, duplicate=false and an
    empty file path; a present key yields missing=false, duplicate exactly
    when the occurrence count exceeds 1, and the newline-join of the
    record's file-path list. -/
theorem C1_classification (np : String → String)
    (res : Except String (List PlexEpisode)) (lib ttl yr : String) (ns : Nat)
    (sd : SeasonExt) (ep : EpisodeData) :
    ((buildShowInventory np res).recs sd.number ep.number = none →
      (mkRow lib ttl yr ns (buildShowInventory np res) sd ep).isMissing = true ∧
      (mkRow lib ttl yr ns (buildShowInventory np res) sd ep).isDuplicate = false ∧
      (mkRow lib ttl yr ns (buildShowInventory np res) sd ep).filePath = "") ∧
    (∀ r, (buildShowInventory np res).recs sd.number ep.number = some r →
      ∃ c, (buildShowInventory np res).counts sd.number ep.number = some c ∧
        (mkRow lib ttl yr ns (buildShowInventory np res) sd ep).isMissing = false ∧
        (mkRow lib ttl yr ns (buildShowInventory np res) sd ep).isDuplicate = decide (c > 1) ∧
        (mkRow lib ttl yr ns (buildShowInventory np res) sd ep).filePath
          = joinNL (r.combined_locations.getD [])) := by
  have hwf := invWF_build np res
  constructor
  · intro hnone
    unfold mkRow classifyEpisode
    rw [hnone]
    exact ⟨rfl, rfl, rfl⟩
  · intro r hrec
    obtain ⟨h1, h2, c, hc⟩ := hwf sd.number ep.number r hrec
    refine ⟨c, hc, ?_⟩
    unfold mkRow classifyEpisode
    rw [hrec, hc]
    cases hcomb : r.combined_locations with
    | none =>
      have hloc := h1 hcomb
      simp [hcomb, hloc, joinNL]
      rfl
    | some l =>
      have hne := h2 l hcomb
      simp [hcomb, hne]

/-- C1 witness: on the one-episode sample inventory, the theorem computes
    the concrete row fields for a missing episode (S01E02) and a present,
    non-duplicate one (S01E01). -/
theorem C1_classification_witness :
    ((mkRow "L" "T" "2020" 1 (buildShowInventory id (.ok [sampleEp]))
        ⟨1, "Season 1", [⟨2, "Second", none⟩]⟩ ⟨2, "Second", none⟩).isMissing = true ∧
      (mkRow "L" "T" "2020" 1 (buildShowInventory id (.ok [sampleEp]))
        ⟨1, "Season 1", [⟨2, "Second", none⟩]⟩ ⟨2, "Second", none⟩).isDuplicate = false ∧
      (mkRow "L" "T" "2020" 1 (buildShowInventory id (.ok [sampleEp]))
        ⟨1, "Season 1", [⟨2, "Second", none⟩]⟩ ⟨2, "Second", none⟩).filePath = "") ∧
    (mkRow "L" "T" "2020" 1 (buildShowInventory id (.ok [sampleEp]))
        ⟨1, "Season 1", [⟨1, "Pilot", none⟩]⟩ ⟨1, "Pilot", none⟩).isMissing = false ∧
    (mkRow "L" "T" "2020" 1 (buildShowInventory id (.ok [sampleEp]))
        ⟨1, "Season 1", [⟨1, "Pilot", none⟩]⟩ ⟨1, "Pilot", none⟩).isDuplicate = false ∧
    (mkRow "L" "T" "2020" 1 (buildShowInventory id (.ok [sampleEp]))
        ⟨1, "Season 1", [⟨1, "Pilot", none⟩]⟩ ⟨1, "Pilot", none⟩).filePath
      = "/media/s01e01.mkv" := by
  refine ⟨?_, ?_⟩
  · exact (C1_classification id (.ok [sampleEp]) "L" "T" "2020" 1
      ⟨1, "Season 1", [⟨2, "Second", none⟩]⟩ ⟨2, "Second", none⟩).1 (by decide)
  · obtain ⟨c, hc, hm, hd, hf⟩ :=
      (C1_classification id (.ok [sampleEp]) "L" "T" "2020" 1
        ⟨1, "Season 1", [⟨1, "Pilot", none⟩]⟩ ⟨1, "Pilot", none⟩).2
        ⟨["/media/s01e01.mkv"], some ["/media/s01e01.mkv"]⟩ (by decide)
    have hc1 : c = 1 := by
      have hc' : (buildShowInventory id (.ok [sampleEp])).counts 1 1 = some 1 := by decide
      exact Option.some.inj (hc.symm.trans hc')
    subst hc1
    refine ⟨hm, by simpa using hd, by simpa [joinNL] using hf⟩

theorem reconcileRows_length (lib ttl yr : String) (ns : Nat) (inv : Inventory)
    (seasons : List SeasonExt) :
    (reconcileRows lib ttl yr ns inv seasons).length = episodeCountSum seasons := by
  induction seasons with
  | nil => rfl
  | cons sd rest ih =>
    unfold reconcileRows at ih ⊢
    rw [List.flatMap_cons, List.length_append, ih]
    unfold episodeCountSum
    rw [List.map_cons, List.sum_cons]
    congr 1
    unfold seasonRows
    by_cases h : sd.episodes.isEmpty
    · simp [h]
    · simp [h]

/-- A sample TVDB environment: a cold cache, one series-level season typed
    with the object form of "official", and a two-episode Season 1. -/
def sampleEnv : TVDBEnv where
  now := 0
  cache := fun _ => none
  searchOutcome := .ok []
  seriesFetch := fun _ => .ok ⟨[⟨7, 1, .obj (some "official")⟩]⟩
  seasonFetch := fun _ =>
    .ok ⟨1, "Season 1", [⟨1, "Pilot", some "2020-01-01"⟩, ⟨2, "Second", none⟩]⟩
  cacheWrite := fun _ => none

/-- The aggregate `sampleEnv` produces for any non-falsy id. -/
def sampleData : ShowData :=
  ⟨⟨[⟨7, 1, .obj (some "official")⟩]⟩,
   [⟨1, "Season 1", [⟨1, "Pilot", some "2020-01-01"⟩, ⟨2, "Second", none⟩]⟩]⟩

/-- A Plex show carrying a TVDB guid and one local episode. -/
def sampleShow : PlexShow :=
  ⟨"T", "2020", [⟨"tvdb://42"⟩], .ok [sampleEp]⟩

/-- C2: for a show with a resolvable id and complete season fetch, the
    returned row index advances by the sum of canonical episode counts over
    the fetched seasons with non-empty episode lists, and the written rows
    are exactly the reconciliation rows, one per canonical episode, in
    catalog order. -/
theorem C2_rows_per_show (np : String → String) (env : TVDBEnv) (shw : PlexShow)
    (lib : String) (st : ReportState) (idx : Nat) (data : ShowData)
    (h : (get_tvdb_data env shw.year (showTvdbId shw)).outcome = .ok data) :
    (process_show np env shw lib st idx).2 = idx + episodeCountSum data.seasons ∧
    ∀ i, i < episodeCountSum data.seasons →
      (process_show np env shw lib st idx).1.main (idx + i)
        = (reconcileRows lib shw.title shw.year (num_seasons_of data.series)
            (buildShowInventory np shw.episodesResult) data.seasons).get? i := by
  have hrows : mainRowsOf np env shw lib
      = reconcileRows lib shw.title shw.year (num_seasons_of data.series)
          (buildShowInventory np shw.episodesResult) data.seasons := by
    unfold mainRowsOf
    rw [h]
  have hps := process_show_ok np env shw lib st idx data h
  rw [hps]
  constructor
  · simp only [hrows, reconcileRows_length]
  · intro i hi
    simp only [hrows]
    exact writeRows_get _ st.main idx i (by rw [reconcileRows_length]; exact hi)

/-- C2 witness: with `sampleEnv` and `sampleShow` the show resolves to a
    one-season, two-episode catalog; starting at row 1, the returned index
    is 3 and row 1 holds the first reconciled episode. -/
theorem C2_rows_per_show_witness :
    (process_show id sampleEnv sampleShow "L" emptyReport 1).2
        = 1 + episodeCountSum sampleData.seasons ∧
    (process_show id sampleEnv sampleShow "L" emptyReport 1).1.main (1 + 0)
        = (reconcileRows "L" sampleShow.title sampleShow.year
            (num_seasons_of sampleData.series)
            (buildShowInventory id sampleShow.episodesResult)
            sampleData.seasons).get? 0 := by
  have h := C2_rows_per_show id sampleEnv sampleShow "L" emptyReport 1 sampleData
    (by rfl)
  exact ⟨h.1, h.2 0 (by decide)⟩

/-- C10: every call of `process_show` returns the input row index plus the
    number of main-sheet rows it writes, never decreases the index, and
    leaves every main-sheet row outside the written range untouched, so
    successive shows occupy disjoint increasing ranges. -/
theorem C10_row_ranges (np : String → String) (env : TVDBEnv) (shw : PlexShow)
    (lib : String) (st : ReportState) (idx : Nat) :
    (process_show np env shw lib st idx).2
        = idx + (mainRowsOf np env shw lib).length ∧
    idx ≤ (process_show np env shw lib st idx).2 ∧
    (∀ j, j < idx → (process_show np env shw lib st idx).1.main j = st.main j) ∧
    (∀ j, (process_show np env shw lib st idx).2 ≤ j →
      (process_show np env shw lib st idx).1.main j = st.main j) := by
  cases h : (get_tvdb_data env shw.year (showTvdbId shw)).outcome with
  | error e =>
    have hrows : mainRowsOf np env shw lib = [] := by
      unfold mainRowsOf
      rw [h]
    have hps := process_show_error np env shw lib st idx e h
    rw [hps, hrows]
    refine ⟨by simp, by simp, ?_, ?_⟩
    · intro j _
      split <;> rfl
    · intro j _
      split <;> rfl
  | ok data =>
    have hps := process_show_ok np env shw lib st idx data h
    rw [hps]
    refine ⟨rfl, Nat.le_add_right idx _, ?_, ?_⟩
    · intro j hj
      exact writeRows_lt _ st.main idx j hj
    · intro j hj
      exact writeRows_ge _ st.main idx j hj

theorem mem_reconcileRows_numSeasons (lib ttl yr : String) (ns : Nat)
    (inv : Inventory) (seasons : List SeasonExt) (r : ReportRow)
    (hr : r ∈ reconcileRows lib ttl yr ns inv seasons) : r.numSeasons = ns := by
  unfold reconcileRows at hr
  rw [List.mem_flatMap] at hr
  obtain ⟨sd, _, hr⟩ := hr
  unfold seasonRows at hr
  by_cases h : sd.episodes.isEmpty
  · simp [h] at hr
  · simp only [h, if_false, Bool.false_eq_true, List.mem_map] at hr
    obtain ⟨ep, _, heq⟩ := hr
    rw [← heq]
    rfl

/-- C3 counterexample: with a series-level season whose raw type is the
    object form of "official" (the shape the nested-subscript fetch filter
    expects), that season is fetched and iterated — the written row exists —
    yet the written "Number of Seasons" is 0, while the count of seasons
    with type absent-or-"official" is 1; the two predicates disagree on this
    season, refuting the claim. -/
theorem C3_counterexample :
    ((process_show id sampleEnv sampleShow "L" emptyReport 1).1.main 1).map
        (fun r => r.numSeasons) = some 0 ∧
    (sampleData.series.seasons.filter (fun s => specOfficialPred s.type)).length = 1 ∧
    seasonSkipCheck (TypeVal.obj (some "official")) = .ok false ∧
    countOfficialPred (TypeVal.obj (some "official")) = false := by
  refine ⟨?_, by decide, by rfl, by decide⟩
  decide

/-- C3 amended: the "Number of Seasons" written on every row of a resolved
    show equals the count of series-level seasons whose raw type value is
    `null` or the literal string "official" (line 297's predicate); this is
    not the predicate used to select seasons for fetching, which inspects
    the nested type field of a type object. -/
theorem C3_amended_season_count (np : String → String) (env : TVDBEnv)
    (shw : PlexShow) (lib : String) (st : ReportState) (idx : Nat)
    (data : ShowData)
    (h : (get_tvdb_data env shw.year (showTvdbId shw)).outcome = .ok data) :
    ∀ i, i < (mainRowsOf np env shw lib).length →
      ∃ row, (process_show np env shw lib st idx).1.main (idx + i) = some row ∧
        row.numSeasons
          = (data.series.seasons.filter (fun s => countOfficialPred s.type)).length := by
  intro i hi
  have hrows : mainRowsOf np env shw lib
      = reconcileRows lib shw.title shw.year (num_seasons_of data.series)
          (buildShowInventory np shw.episodesResult) data.seasons := by
    unfold mainRowsOf
    rw [h]
  have hps := process_show_ok np env shw lib st idx data h
  rw [hps]
  simp only [hrows] at hi ⊢
  have hget := writeRows_get _ st.main idx i hi
  refine ⟨(reconcileRows lib shw.title shw.year (num_seasons_of data.series)
      (buildShowInventory np shw.episodesResult) data.seasons).get ⟨i, hi⟩, ?_, ?_⟩
  · rw [hget, List.get?_eq_get hi]
  · exact mem_reconcileRows_numSeasons _ _ _ _ _ _ _ (List.get_mem _ _ _)

/-- C3 witness: on the sample run the first written row carries the
    line-297 count (here 0, since the only season's type is an object). -/
theorem C3_amended_season_count_witness :
    ((process_show id sampleEnv sampleShow "L" emptyReport 1).1.main (1 + 0)).map
        (fun r => r.numSeasons)
      = some (sampleData.series.seasons.filter
          (fun s => countOfficialPred s.type)).length := by
  obtain ⟨row, hrow, hns⟩ := C3_amended_season_count id sampleEnv sampleShow "L"
    emptyReport 1 sampleData (by rfl) 0 (by decide)
  rw [hrow]
  simpa using hns

/-- A TVDB environment whose metadata fetches succeed but whose cache write
    raises. -/
def failWriteEnv : TVDBEnv where
  now := 0
  cache := fun _ => none
  searchOutcome := .ok []
  seriesFetch := fun _ => .ok ⟨[⟨7, 1, .obj (some "official")⟩]⟩
  seasonFetch := fun _ => .ok ⟨1, "Season 1", [⟨1, "Pilot", none⟩]⟩
  cacheWrite := fun _ => some "disk full"

/-- C4 counterexample: with every fetch succeeding and only the cache write
    failing, the resolver returns an error (not the aggregated data), and
    `process_show` routes the show to the error sheet with no main row —
    the cache-write failure is fatal for the show, refuting the claim. -/
theorem C4_counterexample :
    (get_tvdb_data failWriteEnv "2020" (some "42")).outcome
      = .error "TVDB API error: disk full" ∧
    (process_show id failWriteEnv sampleShow "L" emptyReport 1).1.err 1
      = some ⟨"L", "T", "2020", "TVDB API error: disk full"⟩ ∧
    (process_show id failWriteEnv sampleShow "L" emptyReport 1).1.main 1 = none ∧
    (process_show id failWriteEnv sampleShow "L" emptyReport 1).2 = 1 := by
  exact ⟨by rfl, by decide, by decide, by decide⟩

/-- C4 amended: a failure while writing the aggregate to the cache is fatal
    for that show — the exception is caught by the handler that wraps the
    whole fetch block, so the resolver returns a catalog error
    ("TVDB API error: ...") instead of the aggregate, and no cache write is
    recorded. -/
theorem C4_amended_cache_write_fatal (env : TVDBEnv) (yr i : String)
    (series : SeriesData) (exts : List SeasonExt) (m : String)
    (hi : i ≠ "")
    (hmiss : is_cache_valid env (get_cache_filename i) = false)
    (hfetch : env.seriesFetch i = .ok series)
    (hseasons : fetchSeasons env series.seasons = .ok exts)
    (hwrite : env.cacheWrite (get_cache_filename i) = some m) :
    (get_tvdb_data env yr (some i)).outcome = .error ("TVDB API error: " ++ m) ∧
    (get_tvdb_data env yr (some i)).wroteCache = false := by
  have hg : get_tvdb_data env yr (some i) = cachedOrFetch env i := by
    simp [get_tvdb_data, hi]
  rw [hg]
  unfold cachedOrFetch fetchFresh
  rw [hmiss]
  simp [hfetch, hseasons, hwrite]

/-- C4 witness: the amended theorem applied to the failing-write sample
    environment. -/
theorem C4_amended_cache_write_fatal_witness :
    (get_tvdb_data failWriteEnv "2020" (some "42")).outcome
      = .error ("TVDB API error: " ++ "disk full") ∧
    (get_tvdb_data failWriteEnv "2020" (some "42")).wroteCache = false :=
  C4_amended_cache_write_fatal failWriteEnv "2020" "42"
    ⟨[⟨7, 1, .obj (some "official")⟩]⟩ [⟨1, "Season 1", [⟨1, "Pilot", none⟩]⟩]
    "disk full" (by decide) (by rfl) (by rfl) (by rfl) (by rfl)

/-- A Plex episode whose parts cannot be fetched. -/
def failEp : PlexEpisode := ⟨1, 3, [], .error "io"⟩

/-- A healthy Plex episode S01E02. -/
def okEp : PlexEpisode :=
  ⟨1, 2, ["/media/s01e02.mkv"], .ok [⟨"/media/s01e02.mkv"⟩]⟩

/-- C5 counterexample: a file-fetch failure on an earlier episode leaves a
    later, healthy episode out of the inventory (the `except` sits outside
    the `for` loop, so the whole loop aborts), although that episode alone
    would have been stored — refuting the claim that only the failing
    episode is omitted. -/
theorem C5_counterexample :
    (buildShowInventory id (.ok [failEp, okEp])).recs 1 2 = none ∧
    (buildShowInventory id (.ok [okEp])).recs 1 2
      = some ⟨["/media/s01e02.mkv"], some ["/media/s01e02.mkv"]⟩ := by
  exact ⟨by decide, by decide⟩

/-- C5 amended: a file-fetch failure for one episode aborts inventory
    building at that point: the failing episode and every later episode are
    omitted (all later reported missing), while episodes processed before
    the failure are kept; reconciliation still proceeds with the partial
    inventory. -/
theorem C5_amended_inventory_abort (np : String → String)
    (pre post : List PlexEpisode) (fe : PlexEpisode) (msg : String)
    (h : fe.parts = .error msg) :
    ∀ inv, buildInventoryGo np (pre ++ fe :: post) inv
      = buildInventoryGo np pre inv := by
  induction pre with
  | nil =>
    intro inv
    show buildInventoryGo np (fe :: post) inv = inv
    unfold buildInventoryGo
    rw [h]
  | cons ep rest ih =>
    intro inv
    show buildInventoryGo np (ep :: (rest ++ fe :: post)) inv = _
    unfold buildInventoryGo
    cases hp : ep.parts with
    | error e => rfl
    | ok ps => exact ih _

/-- C5 witness: the amended theorem applied to a concrete
    good–failing–good episode list. -/
theorem C5_amended_inventory_abort_witness :
    buildInventoryGo id ([sampleEp] ++ failEp :: [okEp]) emptyInv
      = buildInventoryGo id [sampleEp] emptyInv :=
  C5_amended_inventory_abort id [sampleEp] [okEp] failEp "io" (by rfl) emptyInv

theorem fetchFresh_flags (env : TVDBEnv) (i f : String) :
    (fetchFresh env i f).usedCache = false ∧ (fetchFresh env i f).fetched = true := by
  unfold fetchFresh
  split
  · exact ⟨rfl, rfl⟩
  · split
    · exact ⟨rfl, rfl⟩
    · split
      · exact ⟨rfl, rfl⟩
      · exact ⟨rfl, rfl⟩

/-- A TVDB environment with a fresh but unreadable (corrupt) cache entry
    for id "42"; the fallback network fetch succeeds with an empty series. -/
def corruptCacheEnv : TVDBEnv where
  now := 0
  cache := fun f => if f = get_cache_filename "42" then some ⟨0, none⟩ else none
  searchOutcome := .ok []
  seriesFetch := fun _ => .ok ⟨[]⟩
  seasonFetch := fun _ => .error "x"
  cacheWrite := fun _ => none

/-- C6 counterexample: a cache file that exists and is within the expiry
    window but whose read raises is not returned — a catalog fetch occurs
    anyway, refuting the claimed "if and only if". -/
theorem C6_counterexample :
    is_cache_valid corruptCacheEnv (get_cache_filename "42") = true ∧
    (get_tvdb_data corruptCacheEnv "" (some "42")).usedCache = false ∧
    (get_tvdb_data corruptCacheEnv "" (some "42")).fetched = true := by
  exact ⟨by decide, by rfl, by rfl⟩

/-- C6 amended: for a resolved identifier, the cached blob is returned (and
    no catalog fetch occurs) if and only if the cache file exists, its
    last-write time is within the expiry window, and its contents load
    successfully; an absent, stale or unreadable entry leads to a catalog
    fetch instead, and a fully successful fetch (including the cache write)
    records a fresh cache write. -/
theorem C6_amended_cache_iff (env : TVDBEnv) (yr i : String) (hi : i ≠ "") :
    (∀ entry blob, env.cache (get_cache_filename i) = some entry →
       is_cache_valid env (get_cache_filename i) = true →
       entry.content = some blob →
       (get_tvdb_data env yr (some i)).outcome = .ok blob ∧
       (get_tvdb_data env yr (some i)).usedCache = true ∧
       (get_tvdb_data env yr (some i)).fetched = false) ∧
    (is_cache_valid env (get_cache_filename i) = false →
       (get_tvdb_data env yr (some i)).usedCache = false ∧
       (get_tvdb_data env yr (some i)).fetched = true) ∧
    ((get_tvdb_data env yr (some i)).usedCache = true →
       ∃ entry blob, env.cache (get_cache_filename i) = some entry ∧
         is_cache_valid env (get_cache_filename i) = true ∧
         entry.content = some blob ∧
         (get_tvdb_data env yr (some i)).outcome = .ok blob) ∧
    (∀ series exts, is_cache_valid env (get_cache_filename i) = false →
       env.seriesFetch i = .ok series →
       fetchSeasons env series.seasons = .ok exts →
       env.cacheWrite (get_cache_filename i) = none →
       (get_tvdb_data env yr (some i)).wroteCache = true) := by
  have hg : get_tvdb_data env yr (some i) = cachedOrFetch env i := by
    simp [get_tvdb_data, hi]
  rw [hg]
  refine ⟨?_, ?_, ?_, ?_⟩
  · intro entry blob hce hv hcb
    unfold cachedOrFetch
    rw [hv]
    simp [hce, hcb]
  · intro hv
    unfold cachedOrFetch
    rw [hv]
    simpa using fetchFresh_flags env i (get_cache_filename i)
  · intro hu
    unfold cachedOrFetch at hu ⊢
    cases hv : is_cache_valid env (get_cache_filename i) with
    | false =>
      rw [hv] at hu
      simp at hu
      rw [(fetchFresh_flags env i (get_cache_filename i)).1] at hu
      simp at hu
    | true =>
      rw [hv] at hu
      cases hce : env.cache (get_cache_filename i) with
      | none =>
        rw [hce] at hu
        simp at hu
        rw [(fetchFresh_flags env i (get_cache_filename i)).1] at hu
        simp at hu
      | some entry =>
        rw [hce] at hu
        simp at hu
        cases hcb : entry.content with
        | none =>
          rw [hcb] at hu
          simp at hu
          rw [(fetchFresh_flags env i (get_cache_filename i)).1] at hu
          simp at hu
        | some blob =>
          exact ⟨entry, blob, by simp [hce], by simp [hv], by simp [hcb],
            by simp [hcb]⟩
  · intro series exts hv hf hs hw
    unfold cachedOrFetch
    rw [hv]
    simp [fetchFresh, hf, hs, hw]

/-- A TVDB environment with a fresh, readable cache entry for id "42" and a
    dead network. -/
def freshCacheEnv : TVDBEnv where
  now := 0
  cache := fun f =>
    if f = get_cache_filename "42" then some ⟨0, some sampleData⟩ else none
  searchOutcome := .ok []
  seriesFetch := fun _ => .error "net"
  seasonFetch := fun _ => .error "net"
  cacheWrite := fun _ => none

/-- C6 witness: the amended theorem applied to a fresh, readable cache
    entry — the cached blob is returned without any fetch. -/
theorem C6_amended_cache_iff_witness :
    (get_tvdb_data freshCacheEnv "" (some "42")).outcome = .ok sampleData ∧
    (get_tvdb_data freshCacheEnv "" (some "42")).usedCache = true ∧
    (get_tvdb_data freshCacheEnv "" (some "42")).fetched = false :=
  (C6_amended_cache_iff freshCacheEnv "" "42" (by decide)).1
    ⟨0, some sampleData⟩ sampleData (by rfl) (by decide) (by rfl)

theorem find?_first {α : Type} (p : α → Bool) :
    ∀ (l : List α) (r : α), l.find? p = some r →
      ∃ k, ∃ hk : k < l.length, l.get ⟨k, hk⟩ = r ∧ p r = true ∧
        ∀ j (hj : j < l.length), j < k → p (l.get ⟨j, hj⟩) = false := by
  intro l
  induction l with
  | nil => intro r h; simp at h
  | cons a t ih =>
    intro r h
    by_cases hpa : p a
    · rw [List.find?_cons_of_pos _ hpa] at h
      refine ⟨0, by simp, by simpa using Option.some.inj h, ?_, ?_⟩
      · rw [Option.some.inj h] at hpa
        exact hpa
      · intro j hj hj0
        omega
    · rw [List.find?_cons_of_neg _ hpa] at h
      obtain ⟨k, hk, hget, hp, hfirst⟩ := ih r h
      refine ⟨k + 1, by simpa using Nat.succ_lt_succ hk, by simpa using hget, hp, ?_⟩
      intro j hj hjk
      match j with
      | 0 => simpa using hpa
      | Nat.succ j' =>
        have hj' : j' < t.length := by simpa using hj
        have := hfirst j' hj' (by omega)
        simpa using this

theorem cachedOrFetch_resolvedId (env : TVDBEnv) (i : String) :
    (cachedOrFetch env i).resolvedId = some i := by
  unfold cachedOrFetch
  split
  · rfl
  · unfold fetchFresh
    split
    · rfl
    · split
      · rfl
      · split
        · rfl
        · rfl

/-- C7: when no catalog identifier is given and the title search returns a
    non-empty list, the resolver selects the first result (in scan order)
    whose reported year equals the given year, or unconditionally the first
    result when no year matches; the selected result's identifier is the one
    resolved for the rest of the pipeline. -/
theorem C7_year_selection (env : TVDBEnv) (yr : String)
    (results : List SearchResult)
    (hres : env.searchOutcome = .ok results) (hne : results ≠ []) :
    ∃ r, selectBestMatch yr results = some r ∧
      (get_tvdb_data env yr none).resolvedId = some r.tvdb_id ∧
      ((∃ k, ∃ hk : k < results.length, results.get ⟨k, hk⟩ = r ∧
          yearMatches yr r = true ∧
          ∀ j (hj : j < results.length), j < k →
            yearMatches yr (results.get ⟨j, hj⟩) = false) ∨
       ((∀ x ∈ results, yearMatches yr x = false) ∧ results.head? = some r)) := by
  cases results with
  | nil => exact absurd rfl hne
  | cons a rs =>
    have hid : ∀ best, selectBestMatch yr (a :: rs) = some best →
        (get_tvdb_data env yr none).resolvedId = some best.tvdb_id := by
      intro best hbest
      have hsearch : searchForId env yr = .ok best.tvdb_id := by
        unfold searchForId
        rw [hres]
        simp only [hbest]
      unfold get_tvdb_data
      simp only [hsearch]
      exact cachedOrFetch_resolvedId env best.tvdb_id
    unfold selectBestMatch
    cases hf : (a :: rs).find? (yearMatches yr) with
    | some r =>
      obtain ⟨k, hk, hget, hp, hfirst⟩ := find?_first (yearMatches yr) (a :: rs) r hf
      refine ⟨r, rfl, hid r (by unfold selectBestMatch; rw [hf]), ?_⟩
      exact Or.inl ⟨k, hk, hget, hp, hfirst⟩
    | none =>
      refine ⟨a, rfl, hid a (by unfold selectBestMatch; rw [hf]; rfl), ?_⟩
      refine Or.inr ⟨?_, rfl⟩
      intro x hx
      have := List.find?_eq_none.mp hf x hx
      simpa using this

/-- C7 witness: with two results and a matching year the second result is
    selected and resolved; the first-match index is exhibited by the
    theorem. -/
theorem C7_year_selection_witness :
    selectBestMatch "2020" [⟨"2019", "1", "A"⟩, ⟨"2020", "2", "B"⟩]
      = some ⟨"2020", "2", "B"⟩ ∧
    (get_tvdb_data
        { now := 0
          cache := fun _ => none
          searchOutcome := .ok [⟨"2019", "1", "A"⟩, ⟨"2020", "2", "B"⟩]
          seriesFetch := fun _ => .error "net"
          seasonFetch := fun _ => .error "net"
          cacheWrite := fun _ => none } "2020" none).resolvedId = some "2" := by
  obtain ⟨r, hsel, hid, _⟩ := C7_year_selection
    { now := 0
      cache := fun _ => none
      searchOutcome := .ok [⟨"2019", "1", "A"⟩, ⟨"2020", "2", "B"⟩]
      seriesFetch := fun _ => .error "net"
      seasonFetch := fun _ => .error "net"
      cacheWrite := fun _ => none } "2020"
    [⟨"2019", "1", "A"⟩, ⟨"2020", "2", "B"⟩] rfl (by simp)
  have hr : r = ⟨"2020", "2", "B"⟩ := by
    have hconc : selectBestMatch "2020" [⟨"2019", "1", "A"⟩, ⟨"2020", "2", "B"⟩]
        = some ⟨"2020", "2", "B"⟩ := by decide
    exact Option.some.inj (hsel.symm.trans hconc)
  subst hr
  exact ⟨hsel, hid⟩

/-- A TVDB environment whose title search raises an exception whose message
    happens to contain the substring "Not found". -/
def searchExcEnv : TVDBEnv where
  now := 0
  cache := fun _ => none
  searchOutcome := .error "Not found host"
  seriesFetch := fun _ => .error "x"
  seasonFetch := fun _ => .error "x"
  cacheWrite := fun _ => none

/-- A Plex show with no guid list (so the resolver must search). -/
def noGuidShow : PlexShow := ⟨"T", "2020", [], .ok []⟩

/-- C8 counterexample: a search exception (not a zero-results search) whose
    message contains "Not found" is routed to the not-found sheet, not the
    other-errors sheet — routing is by substring, refuting the claimed
    partition.  The row is still written at row 1, no main row is written
    and the index is unchanged. -/
theorem C8_counterexample :
    (process_show id searchExcEnv noGuidShow "L" emptyReport 5).1.ntf 1
      = some ⟨"L", "T", "2020", "TVDB search error: Not found host"⟩ ∧
    (process_show id searchExcEnv noGuidShow "L" emptyReport 5).1.err 1 = none ∧
    (process_show id searchExcEnv noGuidShow "L" emptyReport 5).1.main 5 = none ∧
    (process_show id searchExcEnv noGuidShow "L" emptyReport 5).2 = 5 := by
  exact ⟨by decide, by decide, by decide, by decide⟩

/-- C8 amended: every resolution failure writes its error row at the fixed
    row 1 of its sheet (overwriting prior content), writes no main-sheet row
    and returns the row index unchanged; a zero-results search produces the
    message "Not found on TVDB" and lands on the not-found sheet, but the
    routing is by the substring "Not found" in the message, so any other
    failure whose message contains that substring also lands on the
    not-found sheet, and only the rest go to the other-errors sheet. -/
theorem C8_amended_error_routing (np : String → String) (env : TVDBEnv)
    (shw : PlexShow) (lib : String) (st : ReportState) (idx : Nat) (e : String)
    (h : (get_tvdb_data env shw.year (showTvdbId shw)).outcome = .error e) :
    (process_show np env shw lib st idx).2 = idx ∧
    (process_show np env shw lib st idx).1.main = st.main ∧
    (strContains e "Not found" = true →
      (process_show np env shw lib st idx).1.ntf
          = updRow st.ntf 1 ⟨lib, shw.title, shw.year, e⟩ ∧
      (process_show np env shw lib st idx).1.err = st.err) ∧
    (strContains e "Not found" = false →
      (process_show np env shw lib st idx).1.err
          = updRow st.err 1 ⟨lib, shw.title, shw.year, e⟩ ∧
      (process_show np env shw lib st idx).1.ntf = st.ntf) ∧
    (env.searchOutcome = .ok [] → showTvdbId shw = none →
      e = "Not found on TVDB") := by
  have hps := process_show_error np env shw lib st idx e h
  rw [hps]
  refine ⟨rfl, ?_, ?_, ?_, ?_⟩
  · split <;> rfl
  · intro hc
    simp [hc]
  · intro hc
    simp [hc]
  · intro hso hid
    rw [hid] at h
    unfold get_tvdb_data searchForId at h
    rw [hso] at h
    simp at h
    exact h.symm

/-- C8 witness: the amended theorem applied to the substring-routed search
    failure. -/
theorem C8_amended_error_routing_witness :
    (process_show id searchExcEnv noGuidShow "L" emptyReport 5).2 = 5 ∧
    (process_show id searchExcEnv noGuidShow "L" emptyReport 5).1.ntf
      = updRow emptyReport.ntf 1
          ⟨"L", "T", "2020", "TVDB search error: Not found host"⟩ := by
  have h := C8_amended_error_routing id searchExcEnv noGuidShow "L" emptyReport 5
    "TVDB search error: Not found host" (by rfl)
  exact ⟨h.1, (h.2.2.1 (by decide)).1⟩

theorem pollFlag_mono (t p q : Nat) (h : pollFlag t p = true) (hpq : p ≤ q) :
    pollFlag t q = true := by
  unfold pollFlag at *
  simp at *
  omega

theorem take_length_add {α : Type} (l₂ : List α) (n : Nat) :
    ∀ l₁ : List α, (l₁ ++ l₂).take (l₁.length + n) = l₁ ++ l₂.take n := by
  intro l₁
  induction l₁ with
  | nil => simp
  | cons a rest ih =>
    show (a :: (rest ++ l₂)).take (rest.length + 1 + n) = a :: (rest ++ l₂.take n)
    rw [show rest.length + 1 + n = (rest.length + n) + 1 by omega]
    rw [List.take_succ_cons, ih]

theorem runTasks_append (np : String → String) (ys : List (String × ShowTask)) :
    ∀ (xs : List (String × ShowTask)) (acc : ReportState × Nat),
      runTasks np (xs ++ ys) acc = runTasks np ys (runTasks np xs acc) := by
  intro xs
  induction xs with
  | nil => intro acc; rfl
  | cons p rest ih =>
    obtain ⟨lib, task⟩ := p
    intro acc
    exact ih (process_show np task.env task.shw lib acc.1 acc.2)

theorem runShows_prefix_run (np : String → String) (t : Nat) (lib : String) :
    ∀ (tasks : List ShowTask) (acc : LoopAcc),
      ∃ m, m ≤ tasks.length ∧
        ((runShows np t lib tasks acc).st, (runShows np t lib tasks acc).idx)
          = runTasks np ((tasks.take m).map (fun task => (lib, task)))
              (acc.st, acc.idx) ∧
        (m < tasks.length →
          pollFlag t (runShows np t lib tasks acc).polls = true) := by
  intro tasks
  induction tasks with
  | nil =>
    intro acc
    exact ⟨0, Nat.le_refl 0, rfl, by intro h; simp at h⟩
  | cons task rest ih =>
    intro acc
    by_cases hp : pollFlag t acc.polls
    · refine ⟨0, Nat.zero_le _, ?_, ?_⟩
      · unfold runShows
        rw [if_pos hp]
        rfl
      · intro _
        unfold runShows
        rw [if_pos hp]
        exact pollFlag_mono t acc.polls (acc.polls + 1) hp (by omega)
    · obtain ⟨m, hm, heq, hflag⟩ := ih
        ⟨(process_show np task.env task.shw lib acc.st acc.idx).1,
         (process_show np task.env task.shw lib acc.st acc.idx).2,
         acc.polls + 1⟩
      refine ⟨m + 1, by simpa using Nat.succ_le_succ hm, ?_, ?_⟩
      · unfold runShows
        rw [if_neg hp]
        rw [List.take_succ_cons, List.map_cons]
        exact heq
      · intro hlt
        unfold runShows
        rw [if_neg hp]
        exact hflag (by simpa using hlt)

theorem allShows_cons (lib : PlexLibrary) (rest : List PlexLibrary) :
    allShows (lib :: rest)
      = lib.shows.map (fun task => (lib.title, task)) ++ allShows rest := by
  unfold allShows
  rw [List.flatMap_cons]

theorem runLibraries_prefix_run (np : String → String) (t : Nat) :
    ∀ (libs : List PlexLibrary) (acc : LoopAcc),
      ∃ m, m ≤ (allShows libs).length ∧
        ((runLibraries np t libs acc).st, (runLibraries np t libs acc).idx)
          = runTasks np ((allShows libs).take m) (acc.st, acc.idx) := by
  intro libs
  induction libs with
  | nil => intro acc; exact ⟨0, Nat.le_refl 0, rfl⟩
  | cons lib rest ih =>
    intro acc
    obtain ⟨m1, hm1, heq1, hflag1⟩ := runShows_prefix_run np t lib.title lib.shows acc
    have hlen : (allShows (lib :: rest)).length
        = lib.shows.length + (allShows rest).length := by
      rw [allShows_cons, List.length_append, List.length_map]
    by_cases hp : pollFlag t (runShows np t lib.title lib.shows acc).polls
    · refine ⟨m1, by omega, ?_⟩
      have htake : (allShows (lib :: rest)).take m1
          = (lib.shows.take m1).map (fun task => (lib.title, task)) := by
        rw [allShows_cons,
          List.take_append_of_le_length (by simpa using hm1),
          List.map_take]
      rw [htake]
      simp only [runLibraries]
      rw [if_pos hp]
      exact heq1
    · have hm1eq : m1 = lib.shows.length := by
        by_contra hne
        exact hp (hflag1 (lt_of_le_of_ne hm1 hne))
      obtain ⟨m2, hm2, heq2⟩ := ih
        ⟨(runShows np t lib.title lib.shows acc).st,
         (runShows np t lib.title lib.shows acc).idx,
         (runShows np t lib.title lib.shows acc).polls + 1⟩
      refine ⟨lib.shows.length + m2, by omega, ?_⟩
      have hsplit : (allShows (lib :: rest)).take (lib.shows.length + m2)
          = (lib.shows.map (fun task => (lib.title, task)))
              ++ (allShows rest).take m2 := by
        rw [allShows_cons]
        have := take_length_add (allShows rest) m2
          (lib.shows.map (fun task => (lib.title, task)))
        rw [List.length_map] at this
        exact this
      rw [hsplit, runTasks_append]
      have heqfull : ((runShows np t lib.title lib.shows acc).st,
          (runShows np t lib.title lib.shows acc).idx)
          = runTasks np (lib.shows.map (fun task => (lib.title, task)))
              (acc.st, acc.idx) := by
        rw [heq1, hm1eq, List.take_length]
      rw [← heqfull]
      simp only [runLibraries]
      rw [if_neg hp]
      exact heq2

/-- C9: the interrupt flag is polled only between shows: whatever the
    moment the flag is set (threshold `t` in polls), the produced workbook
    is closed (saved) and its contents equal the uninterrupted processing
    of some prefix of the flat show list — every processed show contributes
    all of its rows and no later show is started. -/
theorem C9_interrupt_between_shows (np : String → String) (t : Nat)
    (libs : List PlexLibrary) :
    (mainModel np t libs).closed = true ∧
    ∃ m, m ≤ (allShows libs).length ∧
      ((mainModel np t libs).report, (mainModel np t libs).nextRow)
        = runTasks np ((allShows libs).take m) (emptyReport, 1) := by
  refine ⟨rfl, ?_⟩
  obtain ⟨m, hm, heq⟩ := runLibraries_prefix_run np t libs ⟨emptyReport, 1, 0⟩
  exact ⟨m, hm, heq⟩
